import Mathlib

/-!
Verification of the Aptos state-sync storage synchronizer
(`state-sync/state-sync-driver/src/storage_synchronizer.rs`).

The development shallowly embeds the data model and the bodies of the
worker loops: the ingress facade (`notify_executor`, `save_state_values`,
`initialize_state_synchronizer`, `pending_storage_data`), the executor,
ledger-updater, committer and commit-post-processor workers, and the
state-snapshot receiver with its finalization sequence.  Worker loop
bodies are modelled as pure functions from a received chunk plus an
outcome oracle (the results of the external chunk-executor / storage /
channel calls, one boolean per fallible call) to the list of observable
events they emit (channel sends, error notifications, pending-counter
updates, storage calls) together with a loop-control verdict.  The
transaction pipeline's inter-worker ordering is modelled as a small-step
transition system over the four bounded queues.
-/

namespace StorageSynchronizer

/-- A transaction (opaque payload, identified by a number). -/
abbrev Transaction := Nat

/-- A contract event (opaque payload, identified by a number). -/
abbrev ContractEvent := Nat

/-- A transaction output; only its `events` accessor is consumed by the
synchronizer (`output.events().to_vec()` in `create_commit_notification`). -/
structure TransactionOutput where
  events : List ContractEvent
  deriving Repr, DecidableEq

/-- A ledger info with signatures; the synchronizer only reads its
`version`. -/
structure LedgerInfoWithSignatures where
  version : Nat
  deriving Repr, DecidableEq

/-- The proof part of a `TransactionOutputListWithProof`; the snapshot
receiver reads the first transaction info's state checkpoint hash. -/
structure TransactionInfoListWithProof where
  transaction_infos : List Nat
  deriving Repr, DecidableEq

/-- A proof-bearing list of transaction outputs, as consumed by
`create_commit_notification` (its `transactions_and_outputs` pairs) and
the snapshot receiver. -/
structure TransactionOutputListWithProof where
  transactions_and_outputs : List (Transaction × TransactionOutput)
  proof : TransactionInfoListWithProof
  deriving Repr, DecidableEq

/-- A proof-bearing list of transactions (opaque to the pipeline beyond
its length; carried through the executor call). -/
structure TransactionListWithProof where
  transactions : List Transaction
  deriving Repr, DecidableEq

/-- Modelled from the spec: `StateValueChunkWithProof` lives in
`aptos-types`, outside the sources at hand; per the spec only its fields
`raw_values`, `proof`, `last_index` and the `is_last_chunk` flag are
consumed by the synchronizer. -/
structure StateValueChunkWithProof where
  raw_values : List (Nat × Nat)
  proof : Nat
  last_index : Nat
  is_last_chunk : Bool
  deriving Repr, DecidableEq

/-- A notification id: an opaque 64-bit correlation tag from the driver. -/
abbrev NotificationId := Nat

/-- Timestamps (`Option<Instant>`) are opaque; only threaded through. -/
abbrev Timestamp := Nat

/-- The error type of the state-sync driver as used by the synchronizer:
every error constructed in `storage_synchronizer.rs` is
`Error::UnexpectedError(message)`. -/
inductive Error where
  | unexpectedError (message : String)
  deriving Repr, DecidableEq

/-- Whether a synchronizer operation returned `Ok` (the chunk was
admitted). -/
def resultIsOk : Except Error Unit → Bool
  | Except.ok _ => true
  | Except.error _ => false

/-- A chunk of data to be executed and/or committed to storage
(`enum StorageDataChunk`). -/
inductive StorageDataChunk where
  | states (notification_id : NotificationId) (chunk : StateValueChunkWithProof)
  | transactions (notification_id : NotificationId)
      (notification_creation_time : Option Timestamp)
      (transaction_list_with_proof : TransactionListWithProof)
      (target_ledger_info : LedgerInfoWithSignatures)
      (end_of_epoch_ledger_info : Option LedgerInfoWithSignatures)
  | transactionOutputs (notification_id : NotificationId)
      (notification_creation_time : Option Timestamp)
      (output_list_with_proof : TransactionOutputListWithProof)
      (target_ledger_info : LedgerInfoWithSignatures)
      (end_of_epoch_ledger_info : Option LedgerInfoWithSignatures)
  deriving Repr, DecidableEq

/-- Modelled from the spec: the driver-facing `CommitNotification`
constructor `new_committed_state_snapshot` lives outside the sources at
hand; the spec gives its shape as
`StateSnapshotCommit(events, transactions, last_committed_index, version)`. -/
inductive CommitNotification where
  | stateSnapshotCommit (events : List ContractEvent)
      (transactions : List Transaction)
      (last_committed_state_index : Nat) (version : Nat)
  deriving Repr, DecidableEq

/-- The notification a successful `commit_chunk` call returns
(`ChunkCommitNotification`). -/
structure ChunkCommitNotification where
  committed_transactions : List Transaction
  committed_events : List ContractEvent
  reconfiguration_occurred : Bool
  deriving Repr, DecidableEq

/-- `increment_pending_data_chunks`: `fetch_add(1)` on the shared counter. -/
def increment_pending_data_chunks (pending_data_chunks : Nat) : Nat :=
  pending_data_chunks + 1

/-- `decrement_pending_data_chunks`: `fetch_sub(1)` on the shared counter. -/
def decrement_pending_data_chunks (pending_data_chunks : Nat) : Nat :=
  pending_data_chunks - 1

/-- A bounded mpsc channel of capacity `max_pending_data_chunks`; the
contents list is ordered oldest-first. -/
structure BoundedChannel where
  capacity : Nat
  contents : List StorageDataChunk
  deriving Repr, DecidableEq

/-- `mpsc::Sender::try_send`: succeeds iff the channel is not full. -/
def BoundedChannel.try_send (c : BoundedChannel) (chunk : StorageDataChunk) :
    BoundedChannel × Bool :=
  if c.contents.length < c.capacity then
    ({ c with contents := c.contents ++ [chunk] }, true)
  else
    (c, false)

/-- The mutable state of the `StorageSynchronizer` ingress facade (C1):
the executor channel, the optional bootstrap channel slot, the shared
pending counter, and the configured channel capacity. -/
structure SynchronizerState where
  max_pending_data_chunks : Nat
  executor_notifier : BoundedChannel
  pending_data_chunks : Nat
  state_snapshot_notifier : Option BoundedChannel
  deriving Repr, DecidableEq

/-- `notify_executor`: an awaited `send` into the executor channel; fails
only when the receiver is gone (`send_ok = false`).  On success the
pending counter is incremented (exactly once). -/
def notify_executor (s : SynchronizerState) (storage_data_chunk : StorageDataChunk)
    (send_ok : Bool) : SynchronizerState × Except Error Unit :=
  if send_ok then
    ({ s with
        executor_notifier :=
          { s.executor_notifier with
              contents := s.executor_notifier.contents ++ [storage_data_chunk] },
        pending_data_chunks := increment_pending_data_chunks s.pending_data_chunks },
      Except.ok ())
  else
    (s, Except.error (Error.unexpectedError
      "Failed to send storage data chunk to executor"))

/-- `apply_transaction_outputs`: wraps the arguments in a
`TransactionOutputs` chunk and forwards it via `notify_executor`. -/
def apply_transaction_outputs (s : SynchronizerState)
    (notification_id : NotificationId)
    (notification_creation_time : Option Timestamp)
    (output_list_with_proof : TransactionOutputListWithProof)
    (target_ledger_info : LedgerInfoWithSignatures)
    (end_of_epoch_ledger_info : Option LedgerInfoWithSignatures)
    (send_ok : Bool) : SynchronizerState × Except Error Unit :=
  notify_executor s
    (StorageDataChunk.transactionOutputs notification_id notification_creation_time
      output_list_with_proof target_ledger_info end_of_epoch_ledger_info)
    send_ok

/-- `execute_transactions`: wraps the arguments in a `Transactions` chunk
and forwards it via `notify_executor`. -/
def execute_transactions (s : SynchronizerState)
    (notification_id : NotificationId)
    (notification_creation_time : Option Timestamp)
    (transaction_list_with_proof : TransactionListWithProof)
    (target_ledger_info : LedgerInfoWithSignatures)
    (end_of_epoch_ledger_info : Option LedgerInfoWithSignatures)
    (send_ok : Bool) : SynchronizerState × Except Error Unit :=
  notify_executor s
    (StorageDataChunk.transactions notification_id notification_creation_time
      transaction_list_with_proof target_ledger_info end_of_epoch_ledger_info)
    send_ok

/-- `initialize_state_synchronizer`: creates a fresh bootstrap channel of
capacity `max_pending_data_chunks`, spawns the snapshot receiver, stores
the sender in the slot (unconditionally overwriting any previous one)
and returns `Ok`. -/
def initialize_state_synchronizer (s : SynchronizerState) :
    SynchronizerState × Except Error Unit :=
  ({ s with
      state_snapshot_notifier :=
        some { capacity := s.max_pending_data_chunks, contents := [] } },
    Except.ok ())

/-- `pending_storage_data`: `load(counter) > 0`. -/
def pending_storage_data (s : SynchronizerState) : Bool :=
  s.pending_data_chunks > 0

/-- The error returned by `save_state_values` when the bootstrap channel
slot is empty. -/
def state_snapshot_receiver_uninitialized_error : Error :=
  Error.unexpectedError "The state snapshot receiver has not been initialized!"

/-- The error returned by `save_state_values` when `try_send` on the
bootstrap channel fails (backpressure refusal). -/
def state_snapshot_try_send_error : Error :=
  Error.unexpectedError "Failed to send storage data chunk to state snapshot listener"

/-- `save_state_values`: requires the bootstrap channel to exist, then
`try_send`s a `States` chunk; the pending counter is incremented exactly
when the send succeeds. -/
def save_state_values (s : SynchronizerState) (notification_id : NotificationId)
    (state_value_chunk_with_proof : StateValueChunkWithProof) :
    SynchronizerState × Except Error Unit :=
  match s.state_snapshot_notifier with
  | none => (s, Except.error state_snapshot_receiver_uninitialized_error)
  | some state_snapshot_notifier =>
    let storage_data_chunk :=
      StorageDataChunk.states notification_id state_value_chunk_with_proof
    let sendResult := state_snapshot_notifier.try_send storage_data_chunk
    if sendResult.2 then
      ({ s with
          state_snapshot_notifier := some sendResult.1,
          pending_data_chunks :=
            increment_pending_data_chunks s.pending_data_chunks },
        Except.ok ())
    else
      ({ s with state_snapshot_notifier := some sendResult.1 },
        Except.error state_snapshot_try_send_error)

/-- The worker stages that touch the pending counter or the channels. -/
inductive Stage where
  | executor
  | ledgerUpdater
  | committer
  | commitPostProcessor
  | snapshotReceiver
  deriving Repr, DecidableEq

/-- An observable event emitted by a worker loop body: counter updates,
error-channel sends, inter-stage forwards, storage / executor calls, the
post-commit fan-out and the driver commit-channel send. -/
inductive TraceEvent where
  | increment
  | decrement (stage : Stage)
  | errorSent (notification_id : NotificationId) (message : String)
  | forwardToLedgerUpdater (notification_id : NotificationId)
  | forwardToCommitter (notification_id : NotificationId)
  | forwardToPostProcessor (chunkCommit : ChunkCommitNotification)
  | fanOut (events : List ContractEvent) (transactions : List Transaction)
  | logError (stage : Stage)
  | callAddChunk (raw_values : List (Nat × Nat)) (proof : Nat)
  | callReceiverFinish
  | callFinalizeStateSnapshot (version : Nat)
      (target_output_with_proof : TransactionOutputListWithProof)
      (epoch_change_proofs : List LedgerInfoWithSignatures)
  | callMetadataUpdate (target_ledger_info : LedgerInfoWithSignatures)
      (last_committed_state_index : Nat) (all_states_synced : Bool)
  | callExecutorReset
  | commitSent (commitNotif : CommitNotification)
  | callInitSyncGauges
  deriving Repr, DecidableEq

/-- `send_storage_synchronizer_error`: wraps the message and sends an
`ErrorNotification` tagged with the chunk's notification id on the
(unbounded) error channel. -/
def send_storage_synchronizer_error (notification_id : NotificationId)
    (error_message : String) : TraceEvent :=
  TraceEvent.errorSent notification_id
    ("Storage synchronizer error: " ++ error_message)

/-- Whether a worker loop body continues looping, exits via `break` /
`return`, or exits because its input channel closed. -/
inductive WorkerControl where
  | continueLoop
  | exitLoop
  deriving Repr, DecidableEq

/-- The results of the external calls the executor worker makes for one
chunk: the chunk-executor enqueue call and the awaited send to the
ledger updater. -/
structure ExecutorOutcome where
  enqueue_ok : Bool
  send_ok : Bool
  deriving Repr, DecidableEq

/-- One iteration of the executor worker's loop (`spawn_executor`) on a
received chunk: execute / apply the chunk, and on success forward
`(id, ts)` to the ledger updater; on any failure send an error
notification and decrement the pending counter.  A `States` chunk is
invalid here: it is logged and the loop `break`s (no decrement).
Returns the emitted events, the loop control, and the id forwarded to
the ledger updater (if any). -/
def executor_loop_body (storage_data_chunk : StorageDataChunk)
    (o : ExecutorOutcome) :
    List TraceEvent × WorkerControl × Option NotificationId :=
  match storage_data_chunk with
  | StorageDataChunk.states _ _ =>
      ([TraceEvent.logError Stage.executor], WorkerControl.exitLoop, none)
  | StorageDataChunk.transactions notification_id _ _ _ _ =>
      if o.enqueue_ok then
        if o.send_ok then
          ([TraceEvent.forwardToLedgerUpdater notification_id],
            WorkerControl.continueLoop, some notification_id)
        else
          ([send_storage_synchronizer_error notification_id
              "Failed to notify the ledger updater!",
            TraceEvent.decrement Stage.executor],
            WorkerControl.continueLoop, none)
      else
        ([send_storage_synchronizer_error notification_id
            "Failed to execute the data chunk!",
          TraceEvent.decrement Stage.executor],
          WorkerControl.continueLoop, none)
  | StorageDataChunk.transactionOutputs notification_id _ _ _ _ =>
      if o.enqueue_ok then
        if o.send_ok then
          ([TraceEvent.forwardToLedgerUpdater notification_id],
            WorkerControl.continueLoop, some notification_id)
        else
          ([send_storage_synchronizer_error notification_id
              "Failed to notify the ledger updater!",
            TraceEvent.decrement Stage.executor],
            WorkerControl.continueLoop, none)
      else
        ([send_storage_synchronizer_error notification_id
            "Failed to apply the data chunk!",
          TraceEvent.decrement Stage.executor],
          WorkerControl.continueLoop, none)

/-- The results of the external calls the ledger-updater worker makes for
one chunk. -/
structure LedgerUpdaterOutcome where
  update_ledger_ok : Bool
  send_ok : Bool
  deriving Repr, DecidableEq

/-- One iteration of the ledger-updater worker's loop
(`spawn_ledger_updater`): `update_ledger`, then forward `(id, ts)` to the
committer; on any failure send an error notification and decrement the
pending counter. -/
def ledger_updater_loop_body (notification_id : NotificationId)
    (o : LedgerUpdaterOutcome) : List TraceEvent × Option NotificationId :=
  if o.update_ledger_ok then
    if o.send_ok then
      ([TraceEvent.forwardToCommitter notification_id], some notification_id)
    else
      ([send_storage_synchronizer_error notification_id
          "Failed to notify the committer!",
        TraceEvent.decrement Stage.ledgerUpdater], none)
  else
    ([send_storage_synchronizer_error notification_id
        "Failed to update the ledger!",
      TraceEvent.decrement Stage.ledgerUpdater], none)

/-- The results of the external calls the committer worker makes for one
chunk: the `commit_chunk` call (with the notification it returns on
success) and the awaited send to the post-processor. -/
structure CommitterOutcome where
  commit_chunk_result : Option ChunkCommitNotification
  send_ok : Bool
  deriving Repr, DecidableEq

/-- One iteration of the committer worker's loop (`spawn_committer`):
`commit_chunk`, then forward the returned `ChunkCommitNotification` to
the commit post-processor; on any failure send an error notification and
decrement the pending counter. -/
def committer_loop_body (notification_id : NotificationId)
    (o : CommitterOutcome) :
    List TraceEvent × Option ChunkCommitNotification :=
  match o.commit_chunk_result with
  | some chunkCommit =>
    if o.send_ok then
      ([TraceEvent.forwardToPostProcessor chunkCommit], some chunkCommit)
    else
      ([send_storage_synchronizer_error notification_id
          "Failed to notify the commit post-processor!",
        TraceEvent.decrement Stage.committer], none)
  | none =>
    ([send_storage_synchronizer_error notification_id
        "Failed to commit executed chunk!",
      TraceEvent.decrement Stage.committer], none)

/-- One iteration of the commit post-processor's loop
(`spawn_commit_post_processor`): fan the committed transactions and
events out to mempool, the event-subscription service and the
storage-service handler (`utils::handle_committed_transactions`, which —
modelled from the spec — logs downstream failures and never returns an
error), then decrement the pending counter.  `downstream_ok` records
whether the downstream sinks succeeded; it does not affect the worker's
behaviour. -/
def commit_post_processor_loop_body (chunkCommit : ChunkCommitNotification)
    (_downstream_ok : Bool) : List TraceEvent × WorkerControl :=
  ([TraceEvent.fanOut chunkCommit.committed_events chunkCommit.committed_transactions,
    TraceEvent.decrement Stage.commitPostProcessor],
    WorkerControl.continueLoop)

/-- `Iterator::unzip` as the Rust code runs it: fold over the pairs in
iteration order, pushing each component onto the back of its output
vector. -/
def rustUnzip (pairs : List (Transaction × TransactionOutput)) :
    List Transaction × List TransactionOutput :=
  pairs.foldl (fun acc p => (acc.1 ++ [p.1], acc.2 ++ [p.2])) ([], [])

/-- `create_commit_notification`: unzip `transactions_and_outputs`,
flat-map `output.events()` over the outputs, and build a
`StateSnapshotCommit`. -/
def create_commit_notification
    (target_output_with_proof : TransactionOutputListWithProof)
    (last_committed_state_index : Nat) (version : Nat) : CommitNotification :=
  let unzipped := rustUnzip target_output_with_proof.transactions_and_outputs
  let transactions := unzipped.1
  let outputs := unzipped.2
  let events := outputs.flatMap (fun output => output.events)
  CommitNotification.stateSnapshotCommit events transactions
    last_committed_state_index version

/-- The results of the external calls made during snapshot finalization
(`finalize_storage_and_send_commit`): `receiver.finish()`, the writer's
`finalize_state_snapshot`, the final metadata update, the executor
reset, the commit-channel send, and the sync-gauge re-initialization. -/
structure FinalizeOutcome where
  finish_ok : Bool
  finalize_snapshot_ok : Bool
  metadata_ok : Bool
  reset_ok : Bool
  send_ok : Bool
  gauges_ok : Bool
  deriving Repr, DecidableEq

/-- `finalize_storage_and_send_commit`: seal the snapshot, finalize it in
the ledger store, update the metadata storage with `is_last = true`,
reset the chunk executor, send the `StateSnapshotCommit` notification,
and re-initialize the sync gauges — stopping at the first failing step
(the `?` chain).  Returns the emitted events and whether every step
succeeded. -/
def finalize_storage_and_send_commit (o : FinalizeOutcome)
    (target_output_with_proof : TransactionOutputListWithProof)
    (epoch_change_proofs : List LedgerInfoWithSignatures)
    (version : Nat) (target_ledger_info : LedgerInfoWithSignatures)
    (last_committed_state_index : Nat) : List TraceEvent × Bool :=
  let t := [TraceEvent.callReceiverFinish]
  if !o.finish_ok then (t, false) else
  let t := t ++ [TraceEvent.callFinalizeStateSnapshot version
    target_output_with_proof epoch_change_proofs]
  if !o.finalize_snapshot_ok then (t, false) else
  let t := t ++ [TraceEvent.callMetadataUpdate target_ledger_info
    last_committed_state_index true]
  if !o.metadata_ok then (t, false) else
  let t := t ++ [TraceEvent.callExecutorReset]
  if !o.reset_ok then (t, false) else
  let t := t ++ [TraceEvent.commitSent (create_commit_notification
    target_output_with_proof last_committed_state_index version)]
  if !o.send_ok then (t, false) else
  let t := t ++ [TraceEvent.callInitSyncGauges]
  if !o.gauges_ok then (t, false) else
  (t, true)

/-- The results of the external calls the snapshot receiver makes for one
`States` chunk: the `add_chunk` append, the non-last metadata update,
and the finalization steps (consulted only on the last chunk). -/
structure SnapshotOutcome where
  add_chunk_ok : Bool
  metadata_ok : Bool
  finalize : FinalizeOutcome
  deriving Repr, DecidableEq

/-- One iteration of the snapshot receiver's loop
(`spawn_state_snapshot_receiver`) on a received chunk.  For a `States`
chunk: append it via `add_chunk`; on success either persist the last
index (non-last chunk) or run the finalization sequence (last chunk,
after which the worker `return`s); on append failure send an error
notification.  In every `States` case the pending counter is
decremented exactly once.  A non-`States` chunk is logged as invalid —
and then still falls through to the loop's trailing decrement and the
loop continues. -/
def state_snapshot_receiver_loop_body
    (epoch_change_proofs : List LedgerInfoWithSignatures)
    (target_ledger_info : LedgerInfoWithSignatures)
    (target_output_with_proof : TransactionOutputListWithProof)
    (storage_data_chunk : StorageDataChunk) (o : SnapshotOutcome) :
    List TraceEvent × WorkerControl :=
  let version := target_ledger_info.version
  match storage_data_chunk with
  | StorageDataChunk.states notification_id states_with_proof =>
    let all_states_synced := states_with_proof.is_last_chunk
    let last_committed_state_index := states_with_proof.last_index
    let t := [TraceEvent.callAddChunk states_with_proof.raw_values
      states_with_proof.proof]
    if o.add_chunk_ok then
      if !all_states_synced then
        let t := t ++ [TraceEvent.callMetadataUpdate target_ledger_info
          last_committed_state_index all_states_synced]
        let t := if o.metadata_ok then t else
          t ++ [send_storage_synchronizer_error notification_id
            "Failed to update the last persisted state index!"]
        (t ++ [TraceEvent.decrement Stage.snapshotReceiver],
          WorkerControl.continueLoop)
      else
        let finalizeResult := finalize_storage_and_send_commit o.finalize
          target_output_with_proof epoch_change_proofs version
          target_ledger_info last_committed_state_index
        let t := t ++ finalizeResult.1
        let t := if finalizeResult.2 then t else
          t ++ [send_storage_synchronizer_error notification_id
            "Failed to finalize the state snapshot!"]
        (t ++ [TraceEvent.decrement Stage.snapshotReceiver],
          WorkerControl.exitLoop)
    else
      (t ++ [send_storage_synchronizer_error notification_id
          "Failed to commit state value chunk!",
        TraceEvent.decrement Stage.snapshotReceiver],
        WorkerControl.continueLoop)
  | _ =>
    ([TraceEvent.logError Stage.snapshotReceiver,
      TraceEvent.decrement Stage.snapshotReceiver],
      WorkerControl.continueLoop)

/-- The outcome oracle for a transaction / output chunk's whole journey
through the pipeline (one boolean or result per fallible external call,
stage by stage). -/
structure PipelineOutcome where
  executorOutcome : ExecutorOutcome
  ledgerUpdaterOutcome : LedgerUpdaterOutcome
  committerOutcome : CommitterOutcome
  downstream_ok : Bool
  deriving Repr, DecidableEq

/-- The full trace of events a single admitted transaction / output chunk
gives rise to, obtained by chaining the four worker-loop bodies and
stopping at whichever stage drops the chunk. -/
def transaction_chunk_journey (storage_data_chunk : StorageDataChunk)
    (o : PipelineOutcome) : List TraceEvent :=
  let execResult := executor_loop_body storage_data_chunk o.executorOutcome
  execResult.1 ++
    match execResult.2.2 with
    | none => []
    | some notification_id =>
      let ledgerResult :=
        ledger_updater_loop_body notification_id o.ledgerUpdaterOutcome
      ledgerResult.1 ++
        match ledgerResult.2 with
        | none => []
        | some notification_id2 =>
          let commitResult :=
            committer_loop_body notification_id2 o.committerOutcome
          commitResult.1 ++
            match commitResult.2 with
            | none => []
            | some chunkCommit =>
              (commit_post_processor_loop_body chunkCommit o.downstream_ok).1

/-- The number of pending-counter decrements in a trace. -/
def decrementCount (t : List TraceEvent) : Nat :=
  (t.filter (fun e =>
    match e with
    | TraceEvent.decrement _ => true
    | _ => false)).length

/-- The number of pending-counter increments in a trace. -/
def incrementCount (t : List TraceEvent) : Nat :=
  (t.filter (fun e =>
    match e with
    | TraceEvent.increment => true
    | _ => false)).length

/-- The number of error notifications in a trace. -/
def errorSentCount (t : List TraceEvent) : Nat :=
  (t.filter (fun e =>
    match e with
    | TraceEvent.errorSent _ _ => true
    | _ => false)).length

/-- The error notifications of a trace, in order. -/
def errorsSent (t : List TraceEvent) : List TraceEvent :=
  t.filter (fun e =>
    match e with
    | TraceEvent.errorSent _ _ => true
    | _ => false)

/-- The commit-channel sends of a trace, in order. -/
def commitsSent (t : List TraceEvent) : List TraceEvent :=
  t.filter (fun e =>
    match e with
    | TraceEvent.commitSent _ => true
    | _ => false)

/-- The state of the transaction pipeline's four bounded inter-stage
queues, viewed at the granularity of chunk (notification) ids:
`executorQ` is the ingress→executor channel, `ledgerQ`, `committerQ` and
`postQ` the successive inter-stage channels, `emitted` the order in
which chunk commits reach the post-commit stage, and `submitted` the
ingress submission order.  Queues are ordered oldest-first. -/
structure PipelineState where
  submitted : List NotificationId
  executorQ : List NotificationId
  ledgerQ : List NotificationId
  committerQ : List NotificationId
  postQ : List NotificationId
  emitted : List NotificationId
  deriving Repr, DecidableEq

/-- The empty pipeline. -/
def initPipelineState : PipelineState :=
  { submitted := [], executorQ := [], ledgerQ := [], committerQ := [],
    postQ := [], emitted := [] }

/-- One interleaved step of the pipeline, for channel capacity `cap`:
the ingress may submit a chunk when the executor queue has room; each
worker (a single consumer of its ordered queue) may take the head of its
input queue and, on success, append it to its output queue (awaiting
room, per the bounded channel) or, on a stage failure, drop it; the
post-commit worker emits the chunk.  Any interleaving of these steps is
a run of the pipeline. -/
inductive PipelineStep (cap : Nat) : PipelineState → PipelineState → Prop where
  | submit (s : PipelineState) (id : NotificationId)
      (h : s.executorQ.length < cap) :
      PipelineStep cap s
        { s with submitted := s.submitted ++ [id],
                 executorQ := s.executorQ ++ [id] }
  | executorOk (s : PipelineState) (id : NotificationId)
      (rest : List NotificationId) (h : s.executorQ = id :: rest)
      (hroom : s.ledgerQ.length < cap) :
      PipelineStep cap s
        { s with executorQ := rest, ledgerQ := s.ledgerQ ++ [id] }
  | executorFail (s : PipelineState) (id : NotificationId)
      (rest : List NotificationId) (h : s.executorQ = id :: rest) :
      PipelineStep cap s { s with executorQ := rest }
  | ledgerUpdaterOk (s : PipelineState) (id : NotificationId)
      (rest : List NotificationId) (h : s.ledgerQ = id :: rest)
      (hroom : s.committerQ.length < cap) :
      PipelineStep cap s
        { s with ledgerQ := rest, committerQ := s.committerQ ++ [id] }
  | ledgerUpdaterFail (s : PipelineState) (id : NotificationId)
      (rest : List NotificationId) (h : s.ledgerQ = id :: rest) :
      PipelineStep cap s { s with ledgerQ := rest }
  | committerOk (s : PipelineState) (id : NotificationId)
      (rest : List NotificationId) (h : s.committerQ = id :: rest)
      (hroom : s.postQ.length < cap) :
      PipelineStep cap s
        { s with committerQ := rest, postQ := s.postQ ++ [id] }
  | committerFail (s : PipelineState) (id : NotificationId)
      (rest : List NotificationId) (h : s.committerQ = id :: rest) :
      PipelineStep cap s { s with committerQ := rest }
  | postProcess (s : PipelineState) (id : NotificationId)
      (rest : List NotificationId) (h : s.postQ = id :: rest) :
      PipelineStep cap s
        { s with postQ := rest, emitted := s.emitted ++ [id] }

/-- The pipeline states reachable from the empty pipeline by some
interleaving of worker steps. -/
def PipelineReachable (cap : Nat) (s : PipelineState) : Prop :=
  Relation.ReflTransGen (PipelineStep cap) initPipelineState s

/-- All chunk ids in flight or emitted, ordered: emitted first, then the
queues from the most downstream to the most upstream.  Transfer steps
leave this list unchanged; drop steps remove one element. -/
def pipelineFlat (s : PipelineState) : List NotificationId :=
  s.emitted ++ s.postQ ++ s.committerQ ++ s.ledgerQ ++ s.executorQ

/-- A concrete pipeline state: chunk 7 submitted, still queued at the
executor. -/
def pipelineWitnessState : PipelineState :=
  { submitted := [7], executorQ := [7], ledgerQ := [], committerQ := [],
    postQ := [], emitted := [] }

/-- A fresh synchronizer state (no bootstrap channel yet). -/
def freshSynchronizerState : SynchronizerState :=
  { max_pending_data_chunks := 5,
    executor_notifier := { capacity := 5, contents := [] },
    pending_data_chunks := 0,
    state_snapshot_notifier := none }

/-- A concrete state-value chunk. -/
def sampleStateChunk : StateValueChunkWithProof :=
  { raw_values := [(1, 1)], proof := 0, last_index := 10, is_last_chunk := false }

/-- A finalize outcome in which every external call succeeds. -/
def allOkFinalize : FinalizeOutcome :=
  { finish_ok := true, finalize_snapshot_ok := true, metadata_ok := true,
    reset_ok := true, send_ok := true, gauges_ok := true }

/-- A concrete transaction chunk, as it would arrive (invalidly) on the
snapshot receiver's channel. -/
def invalidSnapshotChunk : StorageDataChunk :=
  StorageDataChunk.transactions 3 none { transactions := [] }
    { version := 100 } none

/-- A snapshot outcome in which every external call succeeds. -/
def allOkSnapshotOutcome : SnapshotOutcome :=
  { add_chunk_ok := true, metadata_ok := true, finalize := allOkFinalize }

/-- A concrete target output list for the snapshot receiver. -/
def sampleTargetOutputs : TransactionOutputListWithProof :=
  { transactions_and_outputs := [], proof := { transaction_infos := [0] } }

lemma pipelineStep_sublist {cap : Nat} {s s' : PipelineState}
    (step : PipelineStep cap s s')
    (ih : (pipelineFlat s).Sublist s.submitted) :
    (pipelineFlat s').Sublist s'.submitted := by
  cases step with
  | submit id h =>
      simpa [pipelineFlat, List.append_assoc] using
        ih.append (List.Sublist.refl [id])
  | executorOk id rest h hroom =>
      simpa [pipelineFlat, h, List.append_assoc] using ih
  | executorFail id rest h =>
      refine List.Sublist.trans ?_ ih
      simp only [pipelineFlat, h, List.append_assoc, List.cons_append]
      exact ((((List.sublist_cons_self id rest).append_left
        _).append_left _).append_left _).append_left _
  | ledgerUpdaterOk id rest h hroom =>
      simpa [pipelineFlat, h, List.append_assoc] using ih
  | ledgerUpdaterFail id rest h =>
      refine List.Sublist.trans ?_ ih
      simp only [pipelineFlat, h, List.append_assoc, List.cons_append]
      exact (((List.sublist_cons_self id _).append_left
        _).append_left _).append_left _
  | committerOk id rest h hroom =>
      simpa [pipelineFlat, h, List.append_assoc] using ih
  | committerFail id rest h =>
      refine List.Sublist.trans ?_ ih
      simp only [pipelineFlat, h, List.append_assoc, List.cons_append]
      exact ((List.sublist_cons_self id _).append_left _).append_left _
  | postProcess id rest h =>
      simpa [pipelineFlat, h, List.append_assoc] using ih

lemma decrementCount_append (a b : List TraceEvent) :
    decrementCount (a ++ b) = decrementCount a + decrementCount b := by
  simp [decrementCount, List.filter_append]

lemma decrementCount_finalize (o : FinalizeOutcome)
    (target_output_with_proof : TransactionOutputListWithProof)
    (epoch_change_proofs : List LedgerInfoWithSignatures)
    (version : Nat) (target_ledger_info : LedgerInfoWithSignatures)
    (last_committed_state_index : Nat) :
    decrementCount (finalize_storage_and_send_commit o target_output_with_proof
      epoch_change_proofs version target_ledger_info
      last_committed_state_index).1 = 0 := by
  rcases o with ⟨f1, f2, f3, f4, f5, f6⟩
  cases f1 <;> cases f2 <;> cases f3 <;> cases f4 <;> cases f5 <;> cases f6 <;> rfl

lemma decrementCount_transaction_chunk_journey_transactions
    (id : NotificationId) (ts : Option Timestamp)
    (tlp : TransactionListWithProof) (li : LedgerInfoWithSignatures)
    (eoe : Option LedgerInfoWithSignatures) (o : PipelineOutcome) :
    decrementCount (transaction_chunk_journey
      (StorageDataChunk.transactions id ts tlp li eoe) o) = 1 := by
  rcases o with ⟨⟨e1, e2⟩, ⟨l1, l2⟩, ⟨cr, c2⟩, d⟩
  cases e1 <;> cases e2 <;> cases l1 <;> cases l2 <;> cases cr <;> cases c2 <;> rfl

lemma decrementCount_transaction_chunk_journey_outputs
    (id : NotificationId) (ts : Option Timestamp)
    (olp : TransactionOutputListWithProof) (li : LedgerInfoWithSignatures)
    (eoe : Option LedgerInfoWithSignatures) (o : PipelineOutcome) :
    decrementCount (transaction_chunk_journey
      (StorageDataChunk.transactionOutputs id ts olp li eoe) o) = 1 := by
  rcases o with ⟨⟨e1, e2⟩, ⟨l1, l2⟩, ⟨cr, c2⟩, d⟩
  cases e1 <;> cases e2 <;> cases l1 <;> cases l2 <;> cases cr <;> cases c2 <;> rfl

lemma decrementCount_snapshot_states
    (epoch_change_proofs : List LedgerInfoWithSignatures)
    (target_ledger_info : LedgerInfoWithSignatures)
    (target_output_with_proof : TransactionOutputListWithProof)
    (id : NotificationId) (states_with_proof : StateValueChunkWithProof)
    (o : SnapshotOutcome) :
    decrementCount (state_snapshot_receiver_loop_body epoch_change_proofs
      target_ledger_info target_output_with_proof
      (StorageDataChunk.states id states_with_proof) o).1 = 1 := by
  rcases states_with_proof with ⟨rv, pf, lastIdx, lastFlag⟩
  rcases o with ⟨a, m, fo⟩
  cases lastFlag with
  | false => cases a <;> cases m <;> rfl
  | true =>
      rcases fo with ⟨f1, f2, f3, f4, f5, f6⟩
      cases a <;> cases m <;> cases f1 <;> cases f2 <;> cases f3 <;>
        cases f4 <;> cases f5 <;> cases f6 <;> rfl

lemma rustUnzip_foldl (l : List (Transaction × TransactionOutput))
    (a : List Transaction) (b : List TransactionOutput) :
    l.foldl (fun acc p => (acc.1 ++ [p.1], acc.2 ++ [p.2])) (a, b) =
      (a ++ l.map Prod.fst, b ++ l.map Prod.snd) := by
  induction l generalizing a b with
  | nil => simp
  | cons p rest ih => simp [List.foldl_cons, ih, List.append_assoc]

lemma rustUnzip_eq (l : List (Transaction × TransactionOutput)) :
    rustUnzip l = (l.map Prod.fst, l.map Prod.snd) := by
  simpa using rustUnzip_foldl l [] []

/-- Claim C1: for every chunk admitted through the ingress
(`apply_transaction_outputs` / `execute_transactions` via
`notify_executor`, or `save_state_values`, returning `Ok`), the pending
counter is incremented exactly once at admission (and not on a refused
submission), and its later journey through the pipeline decrements the
counter exactly once, whatever the outcomes of the stage calls: on
post-commit fan-out, on a fatal stage error at the executor / ledger
updater / committer, or in the snapshot receiver on chunk completion,
failure, or finalization. -/
theorem C1_pending_counter_balance :
    (∀ (s : SynchronizerState) (chunk : StorageDataChunk),
      (notify_executor s chunk true).1.pending_data_chunks =
          s.pending_data_chunks + 1 ∧
        (notify_executor s chunk false).1.pending_data_chunks =
          s.pending_data_chunks) ∧
    (∀ (s : SynchronizerState) (id : NotificationId)
        (ch : StateValueChunkWithProof),
      (save_state_values s id ch).1.pending_data_chunks =
        (if resultIsOk (save_state_values s id ch).2 then
          s.pending_data_chunks + 1 else s.pending_data_chunks)) ∧
    (∀ (id : NotificationId) (ts : Option Timestamp)
        (tlp : TransactionListWithProof) (li : LedgerInfoWithSignatures)
        (eoe : Option LedgerInfoWithSignatures) (o : PipelineOutcome),
      decrementCount (transaction_chunk_journey
        (StorageDataChunk.transactions id ts tlp li eoe) o) = 1) ∧
    (∀ (id : NotificationId) (ts : Option Timestamp)
        (olp : TransactionOutputListWithProof) (li : LedgerInfoWithSignatures)
        (eoe : Option LedgerInfoWithSignatures) (o : PipelineOutcome),
      decrementCount (transaction_chunk_journey
        (StorageDataChunk.transactionOutputs id ts olp li eoe) o) = 1) ∧
    (∀ (proofs : List LedgerInfoWithSignatures)
        (li : LedgerInfoWithSignatures)
        (outputs : TransactionOutputListWithProof) (id : NotificationId)
        (ch : StateValueChunkWithProof) (o : SnapshotOutcome),
      decrementCount (state_snapshot_receiver_loop_body proofs li outputs
        (StorageDataChunk.states id ch) o).1 = 1) := by
  refine ⟨fun s chunk => ⟨rfl, rfl⟩, fun s id ch => ?_,
    decrementCount_transaction_chunk_journey_transactions,
    decrementCount_transaction_chunk_journey_outputs,
    decrementCount_snapshot_states⟩
  rcases hs : s.state_snapshot_notifier with _ | ch0
  · simp [save_state_values, hs, resultIsOk]
  · by_cases hfull : ch0.contents.length < ch0.capacity
    · simp [save_state_values, hs, BoundedChannel.try_send, hfull,
        resultIsOk, increment_pending_data_chunks]
    · simp [save_state_values, hs, BoundedChannel.try_send, hfull,
        resultIsOk]

/-- Claim C2: for every channel capacity and every interleaving of the
worker tasks, the order in which chunk commits reach the post-commit
stage (`emitted`) respects the ingress submission order: at any
reachable pipeline state the emitted ids followed by the ids still in
flight form a sublist of the submission order, so in particular the
emitted sequence itself is in exactly the submission order. -/
theorem C2_commit_order_follows_submission_order (cap : Nat)
    (s : PipelineState) (h : PipelineReachable cap s) :
    (pipelineFlat s).Sublist s.submitted ∧
      s.emitted.Sublist s.submitted := by
  have hflat : (pipelineFlat s).Sublist s.submitted := by
    induction h with
    | refl => simp [pipelineFlat, initPipelineState]
    | tail hsteps hstep ih => exact pipelineStep_sublist hstep ih
  refine ⟨hflat, List.Sublist.trans ?_ hflat⟩
  have hpre : s.emitted.Sublist (s.emitted ++
      (s.postQ ++ (s.committerQ ++ (s.ledgerQ ++ s.executorQ)))) :=
    List.sublist_append_left _ _
  simpa only [pipelineFlat, List.append_assoc] using hpre

/-- Witness for C2: the state reached by submitting chunk 7 (capacity 2)
satisfies the conclusion. -/
theorem C2_commit_order_follows_submission_order_witness :
    (pipelineFlat pipelineWitnessState).Sublist
        pipelineWitnessState.submitted ∧
      pipelineWitnessState.emitted.Sublist pipelineWitnessState.submitted :=
  C2_commit_order_follows_submission_order 2 pipelineWitnessState
    (Relation.ReflTransGen.single
      (PipelineStep.submit initPipelineState 7 (by decide)))

/-- Claim C3 counterexample: a second `initialize_state_synchronizer`
call on the same synchronizer instance is NOT rejected: starting from a
fresh synchronizer, initializing, admitting a state chunk into the
bootstrap channel, and initializing again returns `Ok` and silently
replaces the bootstrap sender with a fresh empty channel (discarding the
queued chunk). -/
theorem C3_second_init_accepted :
    resultIsOk (initialize_state_synchronizer
      (save_state_values
        (initialize_state_synchronizer freshSynchronizerState).1
        9 sampleStateChunk).1).2 = true ∧
    (save_state_values
        (initialize_state_synchronizer freshSynchronizerState).1
        9 sampleStateChunk).1.state_snapshot_notifier =
      some { capacity := 5,
             contents := [StorageDataChunk.states 9 sampleStateChunk] } ∧
    (initialize_state_synchronizer
      (save_state_values
        (initialize_state_synchronizer freshSynchronizerState).1
        9 sampleStateChunk).1).1.state_snapshot_notifier =
      some { capacity := 5, contents := [] } := by
  refine ⟨rfl, by decide, by decide⟩

/-- Claim C3 amended: `initialize_state_synchronizer` always succeeds —
also on a repeated call — and unconditionally installs a fresh bootstrap
channel of the configured capacity in the sender slot, silently
replacing any previous sender. -/
theorem C3_repeated_init_replaces_sender (s : SynchronizerState) :
    (initialize_state_synchronizer s).2 = Except.ok () ∧
      (initialize_state_synchronizer s).1.state_snapshot_notifier =
        some { capacity := s.max_pending_data_chunks, contents := [] } :=
  ⟨rfl, rfl⟩

/-- Claim C4: when the snapshot receiver processes a `States` chunk with
`is_last_chunk = true` whose append succeeds, it performs, in this
order: `receiver.finish`, `finalize_state_snapshot(version, outputs,
proofs)`, `update_last_persisted_state_value_index(li, last_index,
true)`, `executor.reset`, then sends exactly one `StateSnapshotCommit`
(with the last committed index and the target version) on the commit
channel, and the worker terminates. -/
theorem C4_snapshot_finalization_sequence
    (proofs : List LedgerInfoWithSignatures) (li : LedgerInfoWithSignatures)
    (outputs : TransactionOutputListWithProof) (id : NotificationId)
    (raw : List (Nat × Nat)) (pf : Nat) (lastIdx : Nat) (m : Bool) :
    state_snapshot_receiver_loop_body proofs li outputs
        (StorageDataChunk.states id
          { raw_values := raw, proof := pf, last_index := lastIdx,
            is_last_chunk := true })
        { add_chunk_ok := true, metadata_ok := m,
          finalize := allOkFinalize } =
      ([TraceEvent.callAddChunk raw pf,
        TraceEvent.callReceiverFinish,
        TraceEvent.callFinalizeStateSnapshot li.version outputs proofs,
        TraceEvent.callMetadataUpdate li lastIdx true,
        TraceEvent.callExecutorReset,
        TraceEvent.commitSent
          (create_commit_notification outputs lastIdx li.version),
        TraceEvent.callInitSyncGauges,
        TraceEvent.decrement Stage.snapshotReceiver],
        WorkerControl.exitLoop) ∧
    commitsSent (state_snapshot_receiver_loop_body proofs li outputs
        (StorageDataChunk.states id
          { raw_values := raw, proof := pf, last_index := lastIdx,
            is_last_chunk := true })
        { add_chunk_ok := true, metadata_ok := m,
          finalize := allOkFinalize }).1 =
      [TraceEvent.commitSent
        (create_commit_notification outputs lastIdx li.version)] := by
  cases m <;> exact ⟨rfl, rfl⟩

/-- Claim C5: calling `save_state_values` while no bootstrap channel
exists returns the distinct uninitialized error immediately and leaves
the synchronizer state — in particular the pending counter — unchanged;
the backpressure refusal on a full bootstrap channel is a different
error, which also leaves the pending counter unchanged. -/
theorem C5_save_state_values_before_init (mp pending : Nat)
    (execCh : BoundedChannel) (id : NotificationId)
    (ch : StateValueChunkWithProof) :
    save_state_values
        { max_pending_data_chunks := mp, executor_notifier := execCh,
          pending_data_chunks := pending, state_snapshot_notifier := none }
        id ch =
      ({ max_pending_data_chunks := mp, executor_notifier := execCh,
         pending_data_chunks := pending, state_snapshot_notifier := none },
        Except.error state_snapshot_receiver_uninitialized_error) ∧
    state_snapshot_receiver_uninitialized_error ≠
      state_snapshot_try_send_error ∧
    (save_state_values
        { max_pending_data_chunks := mp, executor_notifier := execCh,
          pending_data_chunks := pending,
          state_snapshot_notifier := some { capacity := 0, contents := [] } }
        id ch).2 =
      Except.error state_snapshot_try_send_error ∧
    (save_state_values
        { max_pending_data_chunks := mp, executor_notifier := execCh,
          pending_data_chunks := pending,
          state_snapshot_notifier := some { capacity := 0, contents := [] } }
        id ch).1.pending_data_chunks = pending := by
  exact ⟨rfl, by decide, rfl, rfl⟩

/-- Claim C6: when the executor's enqueue call fails for a
`Transactions` or `TransactionOutputs` chunk, exactly one error
notification tagged with that chunk's notification id (and the
execute / apply message respectively) is sent, the pending counter is
decremented exactly once, and nothing is forwarded to the ledger
updater. -/
theorem C6_executor_failure_handling
    (id : NotificationId) (ts : Option Timestamp)
    (tlp : TransactionListWithProof)
    (olp : TransactionOutputListWithProof) (li : LedgerInfoWithSignatures)
    (eoe : Option LedgerInfoWithSignatures) (send_ok : Bool) :
    executor_loop_body (StorageDataChunk.transactions id ts tlp li eoe)
        { enqueue_ok := false, send_ok := send_ok } =
      ([send_storage_synchronizer_error id
          "Failed to execute the data chunk!",
        TraceEvent.decrement Stage.executor],
        WorkerControl.continueLoop, none) ∧
    executor_loop_body (StorageDataChunk.transactionOutputs id ts olp li eoe)
        { enqueue_ok := false, send_ok := send_ok } =
      ([send_storage_synchronizer_error id
          "Failed to apply the data chunk!",
        TraceEvent.decrement Stage.executor],
        WorkerControl.continueLoop, none) :=
  ⟨rfl, rfl⟩

/-- Claim C7 counterexample: when the snapshot receiver observes a
chunk variant that is invalid for its channel (a `Transactions` chunk),
it does NOT exit its loop and it DOES decrement the pending counter:
the loop body continues and its trace contains exactly one decrement —
contradicting the claim that the worker exits without decrementing. -/
theorem C7_snapshot_receiver_invalid_variant_decrements :
    (state_snapshot_receiver_loop_body [] { version := 100 }
        sampleTargetOutputs invalidSnapshotChunk allOkSnapshotOutcome).2 =
      WorkerControl.continueLoop ∧
    decrementCount (state_snapshot_receiver_loop_body [] { version := 100 }
        sampleTargetOutputs invalidSnapshotChunk allOkSnapshotOutcome).1 =
      1 := by
  exact ⟨rfl, rfl⟩

/-- Claim C7 amended: the executor worker, on a `States` chunk, logs an
error and exits its loop without decrementing the pending counter (so
the driver observes stalled progress); the snapshot receiver, on a
non-`States` chunk, logs an error but then falls through to the loop's
trailing decrement and continues its loop. -/
theorem C7_invalid_variant_behaviour :
    (∀ (id : NotificationId) (ch : StateValueChunkWithProof)
        (o : ExecutorOutcome),
      executor_loop_body (StorageDataChunk.states id ch) o =
        ([TraceEvent.logError Stage.executor], WorkerControl.exitLoop,
          none)) ∧
    (∀ (proofs : List LedgerInfoWithSignatures)
        (li : LedgerInfoWithSignatures)
        (outputs : TransactionOutputListWithProof) (id : NotificationId)
        (ts : Option Timestamp) (tlp : TransactionListWithProof)
        (tli : LedgerInfoWithSignatures)
        (eoe : Option LedgerInfoWithSignatures) (o : SnapshotOutcome),
      state_snapshot_receiver_loop_body proofs li outputs
          (StorageDataChunk.transactions id ts tlp tli eoe) o =
        ([TraceEvent.logError Stage.snapshotReceiver,
          TraceEvent.decrement Stage.snapshotReceiver],
          WorkerControl.continueLoop)) ∧
    (∀ (proofs : List LedgerInfoWithSignatures)
        (li : LedgerInfoWithSignatures)
        (outputs : TransactionOutputListWithProof) (id : NotificationId)
        (ts : Option Timestamp) (olp : TransactionOutputListWithProof)
        (tli : LedgerInfoWithSignatures)
        (eoe : Option LedgerInfoWithSignatures) (o : SnapshotOutcome),
      state_snapshot_receiver_loop_body proofs li outputs
          (StorageDataChunk.transactionOutputs id ts olp tli eoe) o =
        ([TraceEvent.logError Stage.snapshotReceiver,
          TraceEvent.decrement Stage.snapshotReceiver],
          WorkerControl.continueLoop)) :=
  ⟨fun _ _ _ => rfl, fun _ _ _ _ _ _ _ _ _ => rfl,
    fun _ _ _ _ _ _ _ _ _ => rfl⟩

/-- Claim C8: for every notification the post-commit worker receives,
the pending counter is decremented exactly once, strictly after the
fan-out of the committed events and transactions has completed, whether
or not the downstream notification succeeded, and the worker never
sends an error notification. -/
theorem C8_post_commit_decrement_after_fanout
    (cc : ChunkCommitNotification) (downstream_ok : Bool) :
    commit_post_processor_loop_body cc downstream_ok =
      ([TraceEvent.fanOut cc.committed_events cc.committed_transactions,
        TraceEvent.decrement Stage.commitPostProcessor],
        WorkerControl.continueLoop) ∧
    errorSentCount (commit_post_processor_loop_body cc downstream_ok).1 =
      0 ∧
    decrementCount (commit_post_processor_loop_body cc downstream_ok).1 =
      1 :=
  ⟨rfl, rfl, rfl⟩

/-- Claim C9: the `StateSnapshotCommit` notification built at snapshot
finalization carries exactly the transactions obtained by unzipping
`transactions_and_outputs` (their first components in order), the
events obtained by flat-mapping `output.events()` over the outputs (the
second components) in order, the last committed state index, and the
target version. -/
theorem C9_commit_notification_contents
    (pairs : List (Transaction × TransactionOutput))
    (infos : TransactionInfoListWithProof) (lastIdx version : Nat) :
    create_commit_notification
        { transactions_and_outputs := pairs, proof := infos }
        lastIdx version =
      CommitNotification.stateSnapshotCommit
        ((pairs.map Prod.snd).flatMap (fun output => output.events))
        (pairs.map Prod.fst) lastIdx version := by
  simp [create_commit_notification, rustUnzip_eq]

/-- Claim C10: in the snapshot receiver, when `add_chunk` succeeds on a
non-last chunk but the metadata update fails, the worker sends one
error notification tagged with that chunk's notification id, still
decrements the pending counter exactly once, and continues its loop, so
later state chunks are still processed. -/
theorem C10_metadata_failure_continues
    (proofs : List LedgerInfoWithSignatures) (li : LedgerInfoWithSignatures)
    (outputs : TransactionOutputListWithProof) (id : NotificationId)
    (raw : List (Nat × Nat)) (pf : Nat) (lastIdx : Nat)
    (fo : FinalizeOutcome) :
    state_snapshot_receiver_loop_body proofs li outputs
        (StorageDataChunk.states id
          { raw_values := raw, proof := pf, last_index := lastIdx,
            is_last_chunk := false })
        { add_chunk_ok := true, metadata_ok := false, finalize := fo } =
      ([TraceEvent.callAddChunk raw pf,
        TraceEvent.callMetadataUpdate li lastIdx false,
        send_storage_synchronizer_error id
          "Failed to update the last persisted state index!",
        TraceEvent.decrement Stage.snapshotReceiver],
        WorkerControl.continueLoop) :=
  rfl

end StorageSynchronizer
